import Mathlib

/-!
Verification of the acr-builder fragment: registry-credential classification
(`graph/registry_credential.go`) and remote digest resolution
(`builder/digest_remote.go`), shallowly embedded in Lean 4.
-/

set_option autoImplicit false

/-- The `RegistryCredential` struct of `graph/registry_credential.go`:
a combination of registry, username and password, with provider-type tags,
identity and ARM resource id. All fields are Go strings (zero value `""`). -/
structure RegistryCredential where
  Registry : String
  Username : String
  UsernameType : String
  Password : String
  PasswordType : String
  Identity : String
  ArmResource : String
deriving DecidableEq, Repr

/-- The classification-time error values of `graph/registry_credential.go`,
one constructor per distinguishable error singleton:
`errInvalidRegName`, `errInvalidUsername`, `errInvalidPassword`,
`errInvalidIdentity`, `errInvalidArmResourceID`, `errCouldNotClassify`. -/
inductive CredErrKind where
  | MissingRegistry
  | MissingUsername
  | MissingPassword
  | MissingIdentity
  | MissingArmResource
  | UnclassifiableCredential
deriving DecidableEq, Repr

/-- Charwise lowercase case-folding, modelling Go's `strings.ToLower` as used
by `CreateRegistryCredentialFromString`. (Lean's own `String.toLower` maps the
same `Char.toLower` over the string, but through a byte-position loop defined
by well-founded recursion, which the kernel cannot reduce; this charwise form
computes.) -/
def strToLower (s : String) : String := ⟨s.data.map Char.toLower⟩

/-- The body of `CreateRegistryCredentialFromString` after `json.Unmarshal`
has produced the field set `cred` (the claims quantify over deserializable
inputs, i.e. over every such field set; a deserialization failure is the
distinct `MalformedInput` error, reported before this code runs).
Faithful to the source: the two type tags are case-folded to lowercase,
the registry is checked first, then the three mutually-exclusive shapes
are tried in order `isOpaque`, `hasVaultSecret`, `isMSI`, with the Go
constants `Opaque = "opaque"` and `VaultSecret = "vaultsecret"` inlined. -/
def CreateRegistryCredentialFromString (cred : RegistryCredential) :
    Except CredErrKind RegistryCredential :=
  let uLow := strToLower cred.UsernameType
  let pLow := strToLower cred.PasswordType
  if cred.Registry = "" then
    .error .MissingRegistry
  else if uLow = "opaque" ∧ pLow = "opaque" then
    if cred.Username = "" then .error .MissingUsername
    else if cred.Password = "" then .error .MissingPassword
    else .ok ⟨cred.Registry, cred.Username, uLow, cred.Password, pLow, "", ""⟩
  else if uLow = "vaultsecret" ∨ pLow = "vaultsecret" then
    if cred.Username = "" then .error .MissingUsername
    else if cred.Password = "" then .error .MissingPassword
    else if cred.Identity = "" then .error .MissingIdentity
    else .ok ⟨cred.Registry, cred.Username, uLow, cred.Password, pLow, cred.Identity, ""⟩
  else if uLow = "" ∧ pLow = "" then
    if cred.Identity = "" then .error .MissingIdentity
    else if cred.ArmResource = "" then .error .MissingArmResource
    else .ok ⟨cred.Registry, "", "", "", "", cred.Identity, cred.ArmResource⟩
  else
    .error .UnclassifiableCredential

example :
    CreateRegistryCredentialFromString ⟨"r.io", "u", "Opaque", "p", "opaque", "", ""⟩ =
      .ok ⟨"r.io", "u", "opaque", "p", "opaque", "", ""⟩ := rfl

example :
    CreateRegistryCredentialFromString ⟨"r.io", "", "", "", "", "", ""⟩ =
      .error .MissingIdentity := rfl

example :
    CreateRegistryCredentialFromString ⟨"", "u", "x", "p", "y", "i", "a"⟩ =
      .error .MissingRegistry := rfl

/-- Claim C3: for every deserializable input with an empty registry field,
classification fails with `MissingRegistry` regardless of all other fields:
the registry check precedes shape detection and every shape's
required-field checks. -/
theorem missing_registry_first (c : RegistryCredential) (h : c.Registry = "") :
    CreateRegistryCredentialFromString c = .error .MissingRegistry := by
  simp [CreateRegistryCredentialFromString, h]

/-- Witness for C3 at a concrete input that would otherwise be a valid
vault-secret credential. -/
theorem missing_registry_first_witness :
    CreateRegistryCredentialFromString ⟨"", "u", "vaultsecret", "p", "vaultsecret", "i", "a"⟩ =
      .error .MissingRegistry :=
  missing_registry_first ⟨"", "u", "vaultsecret", "p", "vaultsecret", "i", "a"⟩ rfl

/-- Claim C1: for every deserializable input whose registry is non-empty and
whose two type fields both case-fold to `"opaque"`: classification succeeds
iff username and password are both non-empty, failing with `MissingUsername`
when the username is empty, else `MissingPassword` when the password is
empty; on success the result retains registry, username, password and the two
lowercased type tags, with identity and armResource empty. -/
theorem plain_secret_shape_classification (c : RegistryCredential)
    (hreg : c.Registry ≠ "")
    (hu : strToLower c.UsernameType = "opaque")
    (hp : strToLower c.PasswordType = "opaque") :
    (c.Username = "" →
      CreateRegistryCredentialFromString c = .error .MissingUsername) ∧
    (c.Username ≠ "" → c.Password = "" →
      CreateRegistryCredentialFromString c = .error .MissingPassword) ∧
    (c.Username ≠ "" → c.Password ≠ "" →
      CreateRegistryCredentialFromString c =
        .ok ⟨c.Registry, c.Username, "opaque", c.Password, "opaque", "", ""⟩) ∧
    ((∃ r, CreateRegistryCredentialFromString c = .ok r) ↔
      (c.Username ≠ "" ∧ c.Password ≠ "")) := by
  by_cases h1 : c.Username = "" <;> by_cases h2 : c.Password = "" <;>
    simp [CreateRegistryCredentialFromString, hreg, hu, hp, h1, h2]

/-- Witness for C1 at the spec's scenario input
`{"registry":"r.io","username":"u","userNameProviderType":"Opaque",
"password":"p","passwordProviderType":"opaque"}`, whose username type tag
case-folds to `"opaque"`. -/
theorem plain_secret_shape_classification_witness :
    CreateRegistryCredentialFromString ⟨"r.io", "u", "Opaque", "p", "opaque", "", ""⟩ =
      .ok ⟨"r.io", "u", "opaque", "p", "opaque", "", ""⟩ :=
  (plain_secret_shape_classification ⟨"r.io", "u", "Opaque", "p", "opaque", "", ""⟩
    (by decide) rfl rfl).2.2.1 (by decide) (by decide)

/-- Claim C2: for every deserializable input whose registry is non-empty and
where at least one lowercased type field equals `"vaultsecret"` (the other
may be any value, including `"opaque"`): classification requires username,
password and identity all non-empty, failing with `MissingUsername`,
`MissingPassword` or `MissingIdentity` in that order; on success the result
retains registry, username, password, both lowercased type tags and
identity, with armResource empty. -/
theorem vault_shape_classification (c : RegistryCredential)
    (hreg : c.Registry ≠ "")
    (hv : strToLower c.UsernameType = "vaultsecret" ∨
          strToLower c.PasswordType = "vaultsecret") :
    (c.Username = "" →
      CreateRegistryCredentialFromString c = .error .MissingUsername) ∧
    (c.Username ≠ "" → c.Password = "" →
      CreateRegistryCredentialFromString c = .error .MissingPassword) ∧
    (c.Username ≠ "" → c.Password ≠ "" → c.Identity = "" →
      CreateRegistryCredentialFromString c = .error .MissingIdentity) ∧
    (c.Username ≠ "" → c.Password ≠ "" → c.Identity ≠ "" →
      CreateRegistryCredentialFromString c =
        .ok ⟨c.Registry, c.Username, strToLower c.UsernameType,
             c.Password, strToLower c.PasswordType, c.Identity, ""⟩) := by
  have hnotop : ¬ (strToLower c.UsernameType = "opaque" ∧
      strToLower c.PasswordType = "opaque") := by
    rcases hv with h | h <;> rw [h] <;> intro hand <;>
      first
      | exact absurd hand.1 (by decide)
      | exact absurd hand.2 (by decide)
  by_cases h1 : c.Username = "" <;> by_cases h2 : c.Password = "" <;>
    by_cases h3 : c.Identity = "" <;>
    simp [CreateRegistryCredentialFromString, hreg, hnotop, hv, h1, h2, h3]

/-- Witness for C2 at an asymmetric input: username type `"opaque"`,
password type `"VaultSecret"` (case-folds to `"vaultsecret"`). -/
theorem vault_shape_classification_witness :
    CreateRegistryCredentialFromString ⟨"r.io", "u", "opaque", "p", "VaultSecret", "id", ""⟩ =
      .ok ⟨"r.io", "u", "opaque", "p", "vaultsecret", "id", ""⟩ :=
  (vault_shape_classification ⟨"r.io", "u", "opaque", "p", "VaultSecret", "id", ""⟩
    (by decide) (Or.inr rfl)).2.2.2 (by decide) (by decide) (by decide)

/-- Claim C9: for every deserializable input with non-empty registry where one
lowercased type field equals `"vaultsecret"` and the other holds any string at
all (including values belonging to no shape, such as `"foo"`), classification
takes the vault-secret branch: it never fails with
`UnclassifiableCredential`, any success retains both lowercased type tags in
the result, and the outcome is one of the vault branch's missing-field
errors or a success. -/
theorem vault_branch_absorbs_other_tag (c : RegistryCredential)
    (hreg : c.Registry ≠ "")
    (hv : strToLower c.UsernameType = "vaultsecret" ∨
          strToLower c.PasswordType = "vaultsecret") :
    CreateRegistryCredentialFromString c ≠ .error .UnclassifiableCredential ∧
    (∀ r, CreateRegistryCredentialFromString c = .ok r →
      r.UsernameType = strToLower c.UsernameType ∧
      r.PasswordType = strToLower c.PasswordType) ∧
    (CreateRegistryCredentialFromString c = .error .MissingUsername ∨
     CreateRegistryCredentialFromString c = .error .MissingPassword ∨
     CreateRegistryCredentialFromString c = .error .MissingIdentity ∨
     ∃ r, CreateRegistryCredentialFromString c = .ok r) := by
  have hnotop : ¬ (strToLower c.UsernameType = "opaque" ∧
      strToLower c.PasswordType = "opaque") := by
    rcases hv with h | h <;> rw [h] <;> intro hand <;>
      first
      | exact absurd hand.1 (by decide)
      | exact absurd hand.2 (by decide)
  by_cases h1 : c.Username = "" <;> by_cases h2 : c.Password = "" <;>
    by_cases h3 : c.Identity = "" <;>
    simp [CreateRegistryCredentialFromString, hreg, hnotop, hv, h1, h2, h3]

/-- Witness for C9 at an input whose password type tag is the unrecognized
string `"foo"`: the vault-secret branch still applies and retains it. -/
theorem vault_branch_absorbs_other_tag_witness :
    CreateRegistryCredentialFromString ⟨"r.io", "u", "vaultsecret", "p", "foo", "id", ""⟩ ≠
      .error .UnclassifiableCredential :=
  (vault_branch_absorbs_other_tag ⟨"r.io", "u", "vaultsecret", "p", "foo", "id", ""⟩
    (by decide) (Or.inl rfl)).1

/-- Claim C4: for every deserializable input whose registry is non-empty and
whose two type fields are both the empty string: classification requires
identity and armResource both non-empty, failing with `MissingIdentity`
(identity checked first) or `MissingArmResource`; on success the result
contains only registry, identity and armResource — its username, password
and both type fields are empty even when the input supplied them. -/
theorem msi_shape_classification (c : RegistryCredential)
    (hreg : c.Registry ≠ "")
    (hu : c.UsernameType = "") (hp : c.PasswordType = "") :
    (c.Identity = "" →
      CreateRegistryCredentialFromString c = .error .MissingIdentity) ∧
    (c.Identity ≠ "" → c.ArmResource = "" →
      CreateRegistryCredentialFromString c = .error .MissingArmResource) ∧
    (c.Identity ≠ "" → c.ArmResource ≠ "" →
      CreateRegistryCredentialFromString c =
        .ok ⟨c.Registry, "", "", "", "", c.Identity, c.ArmResource⟩) := by
  by_cases h1 : c.Identity = "" <;> by_cases h2 : c.ArmResource = "" <;>
    simp [CreateRegistryCredentialFromString, strToLower, hreg, hu, hp, h1, h2]

/-- Witness for C4 at an input that supplies a username and password anyway:
the successful result drops them. -/
theorem msi_shape_classification_witness :
    CreateRegistryCredentialFromString ⟨"r.io", "u", "", "p", "", "id", "arm"⟩ =
      .ok ⟨"r.io", "", "", "", "", "id", "arm"⟩ :=
  (msi_shape_classification ⟨"r.io", "u", "", "p", "", "id", "arm"⟩
    (by decide) rfl rfl).2.2 (by decide) (by decide)

/-- Claim C5: for every deserializable input with non-empty registry whose
lowercased type-field pair matches none of the three shapes (not both
`"opaque"`, neither equal to `"vaultsecret"`, not both empty),
classification fails with `UnclassifiableCredential`. -/
theorem unclassifiable_fallthrough (c : RegistryCredential)
    (hreg : c.Registry ≠ "")
    (hop : ¬ (strToLower c.UsernameType = "opaque" ∧
              strToLower c.PasswordType = "opaque"))
    (hvu : strToLower c.UsernameType ≠ "vaultsecret")
    (hvp : strToLower c.PasswordType ≠ "vaultsecret")
    (hmsi : ¬ (strToLower c.UsernameType = "" ∧
               strToLower c.PasswordType = "")) :
    CreateRegistryCredentialFromString c = .error .UnclassifiableCredential := by
  simp [CreateRegistryCredentialFromString, hreg, hop, hvu, hvp, hmsi]

/-- Witness for C5 at the spec's example of an unclassifiable pair: username
type `"opaque"`, password type empty. -/
theorem unclassifiable_fallthrough_witness :
    CreateRegistryCredentialFromString ⟨"r.io", "u", "opaque", "p", "", "id", "arm"⟩ =
      .error .UnclassifiableCredential :=
  unclassifiable_fallthrough ⟨"r.io", "u", "opaque", "p", "", "id", "arm"⟩
    (by decide) (by decide) (by decide) (by decide) (by decide)

/-- The `image.Reference` struct as used by `builder/digest_remote.go`:
registry host, repository, tag, the display string `Reference`, and the
mutable `Digest` field that `PopulateDigest` fills in. -/
structure ImageReference where
  Registry : String
  Repository : String
  Tag : String
  Reference : String
  Digest : String
deriving DecidableEq, Repr

/-- Modelled from the spec: a resolved secret value as consumed through
`cred.Username.ResolvedValue` / `cred.Password.ResolvedValue` in
`PopulateDigest` (the defining `graph` declarations are outside this
fragment; the spec describes the lookup as holding already-resolved
username/password strings). -/
structure ResolvedSecret where
  ResolvedValue : String
deriving DecidableEq, Repr

/-- Modelled from the spec: one entry of the credential lookup, a resolved
username/password pair for a registry host. -/
structure RegistryLoginCredential where
  Username : ResolvedSecret
  Password : ResolvedSecret
deriving DecidableEq, Repr

/-- Modelled from the spec: `graph.RegistryLoginCredentials`, a read-only
mapping from registry host to resolved credential pair, embedded as an
association list. -/
abbrev RegistryLoginCredentials := List (String × RegistryLoginCredential)

/-- First-match lookup in the credential association list, modelling the Go
map index expression `d.registryCreds[ref.Registry]` with its `ok` flag. -/
def lookupCred : RegistryLoginCredentials → String → Option RegistryLoginCredential
  | [], _ => none
  | (k, v) :: rest, reg => if k = reg then some v else lookupCred rest reg

/-- Modelled from the spec: the reserved "no base image" marker
`NoBaseImageSpecifierLatest` compared against `ref.Reference` (its defining
declaration is outside this fragment; every theorem below treats it
abstractly, by hypothesis on `ref.Reference`, so its concrete value is
immaterial). -/
def NoBaseImageSpecifierLatest : String := "scratch:latest"

/-- The resolution-time error outcomes of `PopulateDigest`, one constructor
per distinguishable failure: the credential-fetch error naming the registry,
the wrapped `getReferencePath` parse failure naming `ref.Reference`, and the
wrapped `resolver.Resolve` failure naming `ref.Reference`. -/
inductive DigestErrKind where
  | CredentialResolutionFailed (registry : String)
  | InvalidReference (msg : String) (refStr : String)
  | ResolutionFailed (msg : String) (refStr : String)
deriving DecidableEq, Repr

/-- `getReferencePath` of `builder/digest_remote.go`: build
`registry/repository:tag` (tag defaulting to `"latest"` when empty) and
run it through the external reference-grammar capability `parse`
(`reference.Parse`), wrapping a parse failure with `ref.Reference`. -/
def getReferencePath (parse : String → Except String String)
    (ref : ImageReference) : Except DigestErrKind String :=
  let tag := if ref.Tag = "" then "latest" else ref.Tag
  let fullRefPath := ref.Registry ++ "/" ++ ref.Repository ++ ":" ++ tag
  match parse fullRefPath with
  | .error e => .error (.InvalidReference e ref.Reference)
  | .ok s => .ok s

/-- The caller-visible outcome of one `PopulateDigest` call: the returned
error (`none` = Go `nil`), the reference after the call (`PopulateDigest`
mutates it in place), the credential lookup after the call, and whether the
external `resolver.Resolve` capability was invoked. -/
structure PopulateOutcome where
  err : Option DigestErrKind
  ref : Option ImageReference
  creds : RegistryLoginCredentials
  resolverCalled : Bool
deriving DecidableEq, Repr

/-- The tail of `PopulateDigest` past the credential check: parse the full
reference path, then delegate to the external resolver; on resolver success
write the digest into the reference, on any failure leave it untouched. -/
def PopulateDigestResolve (parse : String → Except String String)
    (res : Option (String × String) → String → Except String String)
    (creds : RegistryLoginCredentials) (ref : ImageReference)
    (credPair : Option (String × String)) : PopulateOutcome :=
  match getReferencePath parse ref with
  | .error e => ⟨some e, some ref, creds, false⟩
  | .ok imageRef =>
    match res credPair imageRef with
    | .error e => ⟨some (.ResolutionFailed e ref.Reference), some ref, creds, true⟩
    | .ok digest => ⟨none, some { ref with Digest := digest }, creds, true⟩

/-- `PopulateDigest` of `builder/digest_remote.go`, with the two external
capabilities passed explicitly: `parse` is the reference-grammar parser and
`res` is `resolver.Resolve`, taking the optional credential pair installed
via `opts.Credentials` (the Go callback ignores its host argument and
always returns this one pair) and the parsed reference, and returning the
digest string of the descriptor or an error (a cancelled context surfaces
as an error from `res`). In order: the three short-circuits (nil reference,
digest already set, no-base-image marker), the credential lookup with its
empty-value check, `getReferencePath`, and only then the resolver call,
whose success writes `ref.Digest`. -/
def PopulateDigest (parse : String → Except String String)
    (res : Option (String × String) → String → Except String String)
    (creds : RegistryLoginCredentials) (ref? : Option ImageReference) :
    PopulateOutcome :=
  match ref? with
  | none => ⟨none, none, creds, false⟩
  | some ref =>
    if ref.Digest ≠ "" then ⟨none, some ref, creds, false⟩
    else if ref.Reference = NoBaseImageSpecifierLatest then ⟨none, some ref, creds, false⟩
    else
      match lookupCred creds ref.Registry with
      | some cred =>
        if cred.Username.ResolvedValue = "" ∨ cred.Password.ResolvedValue = "" then
          ⟨some (.CredentialResolutionFailed ref.Registry), some ref, creds, false⟩
        else
          PopulateDigestResolve parse res creds ref
            (some (cred.Username.ResolvedValue, cred.Password.ResolvedValue))
      | none => PopulateDigestResolve parse res creds ref none

example :
    PopulateDigest (fun s => .ok s) (fun _ s => .ok ("sha256:" ++ s)) []
      (some ⟨"r.io", "app", "", "r.io/app", ""⟩) =
      ⟨none, some ⟨"r.io", "app", "", "r.io/app", "sha256:r.io/app:latest"⟩, [], true⟩ := rfl

/-- Helper: past the credential check, the tail of `PopulateDigest` returns
the reference unchanged on any error, and changes at most the digest field,
only after a successful resolver call. -/
theorem resolveTail_atomic (parse : String → Except String String)
    (res : Option (String × String) → String → Except String String)
    (creds : RegistryLoginCredentials) (r : ImageReference)
    (cp : Option (String × String)) :
    ((PopulateDigestResolve parse res creds r cp).err ≠ none →
      (PopulateDigestResolve parse res creds r cp).ref = some r) ∧
    ((PopulateDigestResolve parse res creds r cp).ref ≠ some r →
      (PopulateDigestResolve parse res creds r cp).err = none ∧
      (PopulateDigestResolve parse res creds r cp).resolverCalled = true ∧
      ∃ d, (PopulateDigestResolve parse res creds r cp).ref =
        some { r with Digest := d }) := by
  unfold PopulateDigestResolve
  rcases hp : getReferencePath parse r with e | s
  · simp [hp]
  · rcases hr : res cp s with e | d <;> simp [hp, hr]

/-- Helper: past the credential check, the tail of `PopulateDigest` leaves
the credential table untouched and returns a reference agreeing with the
input on every field except possibly the digest. -/
theorem resolveTail_frame (parse : String → Except String String)
    (res : Option (String × String) → String → Except String String)
    (creds : RegistryLoginCredentials) (r : ImageReference)
    (cp : Option (String × String)) :
    (PopulateDigestResolve parse res creds r cp).creds = creds ∧
    ∃ r', (PopulateDigestResolve parse res creds r cp).ref = some r' ∧
      r'.Registry = r.Registry ∧ r'.Repository = r.Repository ∧
      r'.Tag = r.Tag ∧ r'.Reference = r.Reference := by
  unfold PopulateDigestResolve
  rcases hp : getReferencePath parse r with e | s
  · simp [hp]
  · rcases hr : res cp s with e | d <;> simp [hp, hr]

/-- Claim C6: `PopulateDigest` short-circuits — when the reference is absent,
or its digest is already non-empty, or its display string equals the reserved
no-base-image marker, the call succeeds immediately, mutates nothing (an
already-set digest is unchanged, making repeated resolution idempotent), and
never invokes the external resolution capability. -/
theorem populateDigest_short_circuit (parse : String → Except String String)
    (res : Option (String × String) → String → Except String String)
    (creds : RegistryLoginCredentials) (ref? : Option ImageReference)
    (h : ref? = none ∨ ∃ r, ref? = some r ∧
      (r.Digest ≠ "" ∨ r.Reference = NoBaseImageSpecifierLatest)) :
    PopulateDigest parse res creds ref? = ⟨none, ref?, creds, false⟩ := by
  rcases h with h | ⟨r, hr, h⟩
  · subst h; rfl
  · subst hr
    rcases h with hd | hn
    · simp [PopulateDigest, hd]
    · by_cases hd : r.Digest ≠ "" <;> simp [PopulateDigest, hd, hn]

/-- Witness for C6 at a reference whose digest is already populated (with a
parser that accepts everything and a resolver that would fail if reached). -/
theorem populateDigest_short_circuit_witness :
    PopulateDigest (fun s => .ok s) (fun _ _ => .error "network")
      [("r.io", ⟨⟨"u"⟩, ⟨"p"⟩⟩)]
      (some ⟨"r.io", "app", "v1", "r.io/app:v1", "sha256:abc"⟩) =
      ⟨none, some ⟨"r.io", "app", "v1", "r.io/app:v1", "sha256:abc"⟩,
       [("r.io", ⟨⟨"u"⟩, ⟨"p"⟩⟩)], false⟩ :=
  populateDigest_short_circuit _ _ _ _
    (Or.inr ⟨⟨"r.io", "app", "v1", "r.io/app:v1", "sha256:abc"⟩, rfl,
      Or.inl (by decide)⟩)

/-- Claim C7: when the short-circuit checks pass and the credential lookup
holds an entry for the reference's registry whose resolved username or
resolved password is empty, `PopulateDigest` fails with
`CredentialResolutionFailed` naming that registry, mutates nothing, and
never invokes the external resolution capability (no unauthenticated
attempt is made). -/
theorem populateDigest_credential_failure (parse : String → Except String String)
    (res : Option (String × String) → String → Except String String)
    (creds : RegistryLoginCredentials) (r : ImageReference)
    (c : RegistryLoginCredential)
    (hd : r.Digest = "") (hn : r.Reference ≠ NoBaseImageSpecifierLatest)
    (hc : lookupCred creds r.Registry = some c)
    (he : c.Username.ResolvedValue = "" ∨ c.Password.ResolvedValue = "") :
    PopulateDigest parse res creds (some r) =
      ⟨some (.CredentialResolutionFailed r.Registry), some r, creds, false⟩ := by
  simp [PopulateDigest, hd, hn, hc, he]

/-- Witness for C7: a registry with an entry whose resolved username is
empty, tried with a resolver that would succeed if it were (wrongly)
reached. -/
theorem populateDigest_credential_failure_witness :
    PopulateDigest (fun s => .ok s) (fun _ _ => .ok "sha256:abc")
      [("r.io", ⟨⟨""⟩, ⟨"p"⟩⟩)] (some ⟨"r.io", "app", "", "r.io/app", ""⟩) =
      ⟨some (.CredentialResolutionFailed "r.io"),
       some ⟨"r.io", "app", "", "r.io/app", ""⟩,
       [("r.io", ⟨⟨""⟩, ⟨"p"⟩⟩)], false⟩ :=
  populateDigest_credential_failure _ _ [("r.io", ⟨⟨""⟩, ⟨"p"⟩⟩)]
    ⟨"r.io", "app", "", "r.io/app", ""⟩ ⟨⟨""⟩, ⟨"p"⟩⟩
    rfl (by decide) rfl (Or.inl rfl)

/-- Claim C8: `PopulateDigest` is atomic in its effect on the digest — every
erroring call (credential failure, reference-parse failure, resolution
failure) leaves the reference exactly as it was, and whenever the reference
does change, the call succeeded, the external resolver was invoked, and the
only change is the digest field being written on a previously empty digest. -/
theorem populateDigest_error_atomic (parse : String → Except String String)
    (res : Option (String × String) → String → Except String String)
    (creds : RegistryLoginCredentials) (ref? : Option ImageReference) :
    ((PopulateDigest parse res creds ref?).err ≠ none →
      (PopulateDigest parse res creds ref?).ref = ref?) ∧
    ((PopulateDigest parse res creds ref?).ref ≠ ref? →
      (PopulateDigest parse res creds ref?).err = none ∧
      (PopulateDigest parse res creds ref?).resolverCalled = true ∧
      ∃ r d, ref? = some r ∧ r.Digest = "" ∧
        (PopulateDigest parse res creds ref?).ref =
          some { r with Digest := d }) := by
  rcases ref? with _ | r
  · simp [PopulateDigest]
  · by_cases hd : r.Digest = ""
    · by_cases hn : r.Reference = NoBaseImageSpecifierLatest
      · simp [PopulateDigest, hd, hn]
      · rcases hc : lookupCred creds r.Registry with _ | c
        · have h := resolveTail_atomic parse res creds r none
          simp only [PopulateDigest, hd, hn, hc]
          simp only [ne_eq, not_true_eq_false, if_false, if_neg hn]
          refine ⟨fun he => h.1 he, fun hr => ?_⟩
          rcases h.2 hr with ⟨h1, h2, d, h3⟩
          exact ⟨h1, h2, r, d, rfl, hd, h3⟩
        · by_cases he : c.Username.ResolvedValue = "" ∨ c.Password.ResolvedValue = ""
          · simp [PopulateDigest, hd, hn, hc, he]
          · have h := resolveTail_atomic parse res creds r
              (some (c.Username.ResolvedValue, c.Password.ResolvedValue))
            simp only [PopulateDigest, hd, hn, hc]
            simp only [ne_eq, not_true_eq_false, if_false, if_neg hn, if_neg he]
            refine ⟨fun he2 => h.1 he2, fun hr => ?_⟩
            rcases h.2 hr with ⟨h1, h2, d, h3⟩
            exact ⟨h1, h2, r, d, rfl, hd, h3⟩
    · simp [PopulateDigest, hd]

/-- Witness for C8: a resolver failure (e.g. a cancelled context) leaves the
reference, and in particular its empty digest, untouched. -/
theorem populateDigest_error_atomic_witness :
    (PopulateDigest (fun s => .ok s) (fun _ _ => .error "context cancelled") []
      (some ⟨"r.io", "app", "", "r.io/app", ""⟩)).ref =
      some ⟨"r.io", "app", "", "r.io/app", ""⟩ :=
  (populateDigest_error_atomic (fun s => .ok s) (fun _ _ => .error "context cancelled")
    [] (some ⟨"r.io", "app", "", "r.io/app", ""⟩)).1 (by decide)

/-- Claim C10: across every outcome of `PopulateDigest` — short-circuit
success, any error, or successful resolution — the credential lookup table
is unmodified and the only reference field ever written is the digest: the
registry, repository, tag and display string of the reference after the
call equal those of the input reference. -/
theorem populateDigest_frame (parse : String → Except String String)
    (res : Option (String × String) → String → Except String String)
    (creds : RegistryLoginCredentials) (ref? : Option ImageReference) :
    (PopulateDigest parse res creds ref?).creds = creds ∧
    ((ref? = none ∧ (PopulateDigest parse res creds ref?).ref = none) ∨
     ∃ r r', ref? = some r ∧ (PopulateDigest parse res creds ref?).ref = some r' ∧
       r'.Registry = r.Registry ∧ r'.Repository = r.Repository ∧
       r'.Tag = r.Tag ∧ r'.Reference = r.Reference) := by
  rcases ref? with _ | r
  · exact ⟨rfl, Or.inl ⟨rfl, rfl⟩⟩
  · by_cases hd : r.Digest = ""
    · by_cases hn : r.Reference = NoBaseImageSpecifierLatest
      · refine ⟨?_, Or.inr ⟨r, r, rfl, ?_, rfl, rfl, rfl, rfl⟩⟩ <;>
          simp [PopulateDigest, hd, hn]
      · rcases hc : lookupCred creds r.Registry with _ | c
        · have h := resolveTail_frame parse res creds r none
          rcases h.2 with ⟨r', hr', h1, h2, h3, h4⟩
          refine ⟨?_, Or.inr ⟨r, r', rfl, ?_, h1, h2, h3, h4⟩⟩ <;>
            simp [PopulateDigest, hd, hn, hc, h.1, hr']
        · by_cases he : c.Username.ResolvedValue = "" ∨ c.Password.ResolvedValue = ""
          · refine ⟨?_, Or.inr ⟨r, r, rfl, ?_, rfl, rfl, rfl, rfl⟩⟩ <;>
              simp [PopulateDigest, hd, hn, hc, he]
          · have h := resolveTail_frame parse res creds r
              (some (c.Username.ResolvedValue, c.Password.ResolvedValue))
            rcases h.2 with ⟨r', hr', h1, h2, h3, h4⟩
            refine ⟨?_, Or.inr ⟨r, r', rfl, ?_, h1, h2, h3, h4⟩⟩ <;>
              simp [PopulateDigest, hd, hn, hc, he, h.1, hr']
    · refine ⟨?_, Or.inr ⟨r, r, rfl, ?_, rfl, rfl, rfl, rfl⟩⟩ <;>
        simp [PopulateDigest, hd]
